import Mathlib

noncomputable section

/-!
Verification of the model architectures in `template/model.py` of the
`mnist_classification_lenet5` repository.

The three networks (`LeNet5`, `CustomMLP`, `RegularizedLenet5`) are shallowly
embedded.  A tensor is a shape (list of dimensions) together with a flat
row-major data function `ℕ → ℝ`; values at indices beyond the element count
are irrelevant junk.  Each layer primitive of the underlying library
(`nn.Conv2d`, `nn.AvgPool2d`, `nn.MaxPool2d`, `nn.Linear`, `nn.Tanh`,
`nn.ReLU`, `nn.Dropout`, `nn.Dropout2d`, `nn.Softmax`) is embedded as a
function on tensors; operations that raise a shape/dimension-mismatch error
in the library are `Option`-valued, with `none` standing for the raised
error.  Dropout randomness is made explicit: a forward pass receives a
family of Boolean masks `masks : ℕ → ℕ → Bool` (dropout-occurrence counter ↦
flat index ↦ dropped?), and the train/eval switch is an explicit `Mode`
argument, so every stochastic outcome of the library corresponds to some
choice of masks.
-/

/-- A tensor: a shape together with flat row-major data.  Indices `≥ shape.prod`
are junk and never inspected by well-shaped computations. -/
structure Tensor where
  shape : List ℕ
  data : ℕ → ℝ

/-- The two operating modes of a `torch.nn.Module`: `module.train()` /
`module.eval()`. -/
inductive Mode
  | training
  | evaluation

/-- Elementwise `tanh` on flat data (`nn.Tanh`). -/
def tanhData (d : ℕ → ℝ) : ℕ → ℝ :=
  fun i => Real.tanh (d i)

/-- Elementwise `ReLU` on flat data (`nn.ReLU`): `max x 0`. -/
def reluData (d : ℕ → ℝ) : ℕ → ℝ :=
  fun i => max (d i) 0

/-- Training-mode `nn.Dropout(p)` with an explicit mask: a dropped element
becomes `0`, a kept element is rescaled by `1 / (1 - p)`. -/
def dropData (p : ℚ) (mask : ℕ → Bool) (d : ℕ → ℝ) : ℕ → ℝ :=
  fun i => if mask i then 0 else d i * (1 / (1 - (p : ℝ)))

/-- Training-mode `nn.Dropout2d(p)` on a 4-D tensor `(N, C, H, W)`: whole
channels are dropped; `hw = H * W`, so `i / hw` is the (batch, channel)
index of flat element `i`. -/
def drop2dChanData (p : ℚ) (mask : ℕ → Bool) (hw : ℕ) (d : ℕ → ℝ) : ℕ → ℝ :=
  fun i => if mask (i / hw) then 0 else d i * (1 / (1 - (p : ℝ)))

/-- `nn.Dropout` as a function of the mode: active while training, the
identity in evaluation mode. -/
def dropModeData (mode : Mode) (p : ℚ) (mask : ℕ → Bool) (d : ℕ → ℝ) : ℕ → ℝ :=
  match mode with
  | .training => dropData p mask d
  | .evaluation => d

/-- Channel-wise `nn.Dropout2d` as a function of the mode. -/
def drop2dChanModeData (mode : Mode) (p : ℚ) (mask : ℕ → Bool) (hw : ℕ) (d : ℕ → ℝ) : ℕ → ℝ :=
  match mode with
  | .training => drop2dChanData p mask hw d
  | .evaluation => d

/-- Data of `nn.Conv2d(cin, cout, k, stride=st, padding=p)` applied to a
4-D input of spatial size `h × wd`: output element `(n, co, i, j)` is
`bias co + Σ_{ci,ki,kj} weight co ci ki kj * padded-input (n, ci, i*st+ki, j*st+kj)`
with zero padding of width `p` on each side. -/
def conv2dData (cin cout k st p : ℕ) (w : ℕ → ℕ → ℕ → ℕ → ℝ) (bv : ℕ → ℝ)
    (h wd : ℕ) (d : ℕ → ℝ) : ℕ → ℝ :=
  fun idx =>
    let hOut := (h + 2 * p - k) / st + 1
    let wOut := (wd + 2 * p - k) / st + 1
    let j := idx % wOut
    let i := idx / wOut % hOut
    let co := idx / (wOut * hOut) % cout
    let n := idx / (wOut * hOut * cout)
    bv co + ∑ ci ∈ Finset.range cin, ∑ ki ∈ Finset.range k, ∑ kj ∈ Finset.range k,
      w co ci ki kj *
        (if p ≤ i * st + ki ∧ i * st + ki < h + p ∧ p ≤ j * st + kj ∧ j * st + kj < wd + p then
          d (((n * cin + ci) * h + (i * st + ki - p)) * wd + (j * st + kj - p))
        else 0)

/-- Data of `nn.AvgPool2d(k, stride=st)` on a 4-D input with `ch` channels
and spatial size `h × w`: the mean of each `k × k` window. -/
def avgPoolData (k st ch h w : ℕ) (d : ℕ → ℝ) : ℕ → ℝ :=
  fun idx =>
    let hOut := (h - k) / st + 1
    let wOut := (w - k) / st + 1
    let j := idx % wOut
    let i := idx / wOut % hOut
    let c := idx / (wOut * hOut) % ch
    let n := idx / (wOut * hOut * ch)
    (∑ di ∈ Finset.range k, ∑ dj ∈ Finset.range k,
        d (((n * ch + c) * h + (i * st + di)) * w + (j * st + dj))) / ((k : ℝ) * k)

/-- Data of `nn.MaxPool2d(k, stride=st)`: the maximum of each `k × k` window
(computed as a fold over the window, `k ≥ 1` being guaranteed by the caller). -/
def maxPoolData (k st ch h w : ℕ) (d : ℕ → ℝ) : ℕ → ℝ :=
  fun idx =>
    let hOut := (h - k) / st + 1
    let wOut := (w - k) / st + 1
    let j := idx % wOut
    let i := idx / wOut % hOut
    let c := idx / (wOut * hOut) % ch
    let n := idx / (wOut * hOut * ch)
    let v : ℕ → ℕ → ℝ := fun di dj => d (((n * ch + c) * h + (i * st + di)) * w + (j * st + dj))
    (List.range (k * k)).foldl (fun acc q => max acc (v (q / k) (q % k))) (v 0 0)

/-- Data of `nn.Linear(inF, outF)` on 2-D input `(N, inF)`:
`y[r, c] = bias c + Σ_j weight c j * x[r, j]` (torch stores `weight : (outF, inF)`). -/
def linearData (inF outF : ℕ) (w : ℕ → ℕ → ℝ) (bv : ℕ → ℝ) (d : ℕ → ℝ) : ℕ → ℝ :=
  fun idx => bv (idx % outF) + ∑ j ∈ Finset.range inF, w (idx % outF) j * d (idx / outF * inF + j)

/-- Data of `nn.Softmax(dim=1)` on 2-D input `(N, n)`:
`y[r, c] = exp x[r, c] / Σ_j exp x[r, j]`. -/
def softmaxData (n : ℕ) (d : ℕ → ℝ) : ℕ → ℝ :=
  fun idx => Real.exp (d idx) / ∑ j ∈ Finset.range n, Real.exp (d (idx / n * n + j))

/-- `nn.Tanh` on a tensor. -/
def tanhT (t : Tensor) : Tensor :=
  ⟨t.shape, tanhData t.data⟩

/-- `nn.ReLU` on a tensor. -/
def reluT (t : Tensor) : Tensor :=
  ⟨t.shape, reluData t.data⟩

/-- `nn.Dropout(p)` on a tensor, given the mode and a mask. -/
def dropoutT (mode : Mode) (p : ℚ) (mask : ℕ → Bool) (t : Tensor) : Tensor :=
  ⟨t.shape, dropModeData mode p mask t.data⟩

/-- `nn.Conv2d` on a tensor.  The library raises a dimension-mismatch error
(`none`) unless the input is 4-D with `cin` channels and the padded spatial
size is at least the kernel size. -/
def conv2dT (cin cout k st p : ℕ) (w : ℕ → ℕ → ℕ → ℕ → ℝ) (bv : ℕ → ℝ)
    (t : Tensor) : Option Tensor :=
  match t.shape with
  | [n, c, h, wd] =>
      if c = cin ∧ k ≤ h + 2 * p ∧ k ≤ wd + 2 * p then
        some ⟨[n, cout, (h + 2 * p - k) / st + 1, (wd + 2 * p - k) / st + 1],
              conv2dData cin cout k st p w bv h wd t.data⟩
      else none
  | _ => none

/-- `nn.AvgPool2d` on a tensor; errors unless 4-D with window fitting inside
the spatial extent. -/
def avgPoolT (k st : ℕ) (t : Tensor) : Option Tensor :=
  match t.shape with
  | [n, c, h, w] =>
      if k ≤ h ∧ k ≤ w then
        some ⟨[n, c, (h - k) / st + 1, (w - k) / st + 1], avgPoolData k st c h w t.data⟩
      else none
  | _ => none

/-- `nn.MaxPool2d` on a tensor. -/
def maxPoolT (k st : ℕ) (t : Tensor) : Option Tensor :=
  match t.shape with
  | [n, c, h, w] =>
      if k ≤ h ∧ k ≤ w then
        some ⟨[n, c, (h - k) / st + 1, (w - k) / st + 1], maxPoolData k st c h w t.data⟩
      else none
  | _ => none

/-- `nn.Linear(inF, outF)` on a tensor (the 2-D case, which is the only one
arising in these models); errors unless the feature dimension is `inF`. -/
def linearT (inF outF : ℕ) (w : ℕ → ℕ → ℝ) (bv : ℕ → ℝ) (t : Tensor) : Option Tensor :=
  match t.shape with
  | [n, f] => if f = inF then some ⟨[n, outF], linearData inF outF w bv t.data⟩ else none
  | _ => none

/-- `nn.Softmax(dim=1)` on a tensor (the rank-2 case, the only one reached in
these models — every `Softmax` here follows a `Linear` on 2-D data). -/
def softmaxT (dim : ℕ) (t : Tensor) : Option Tensor :=
  match dim, t.shape with
  | 1, [n, c] => some ⟨[n, c], softmaxData c t.data⟩
  | _, _ => none

/-- `x.view(-1, n)`: reinterprets the flat data with the second dimension
fixed to `n` and the first inferred as `numel / n`; the library errors when
`numel` is not divisible by `n`. -/
def viewFlat (n : ℕ) (t : Tensor) : Option Tensor :=
  if 0 < n ∧ t.shape.prod % n = 0 then some ⟨[t.shape.prod / n, n], t.data⟩ else none

/-- Flattening "to `(batch, rest)`" as the specification words it: the first
dimension is kept and the remaining dimensions are collapsed. -/
def flattenBatch (t : Tensor) : Option Tensor :=
  match t.shape with
  | b :: rest => some ⟨[b, rest.prod], t.data⟩
  | [] => none

/-- One layer of an `nn.Sequential`, with its learned parameters embedded
as functions (torch stores `Conv2d.weight : (cout, cin, k, k)`,
`Linear.weight : (outF, inF)`, biases of length `cout` / `outF`). -/
inductive Layer
  | conv2d (cin cout k st p : ℕ) (w : ℕ → ℕ → ℕ → ℕ → ℝ) (bv : ℕ → ℝ)
  | tanh
  | relu
  | avgPool2d (k st : ℕ)
  | maxPool2d (k st : ℕ)
  | dropout (p : ℚ)
  | dropout2d (p : ℚ)
  | linear (inF outF : ℕ) (w : ℕ → ℕ → ℝ) (bv : ℕ → ℝ)
  | softmax (dim : ℕ)

/-- The parameter-free skeleton of a layer: its type and hyperparameters. -/
inductive Arch
  | conv2d (cin cout k st p : ℕ)
  | tanh
  | relu
  | avgPool2d (k st : ℕ)
  | maxPool2d (k st : ℕ)
  | dropout (p : ℚ)
  | dropout2d (p : ℚ)
  | linear (inF outF : ℕ)
  | softmax (dim : ℕ)

/-- Erase the parameters of a layer, keeping its topology. -/
def Layer.arch : Layer → Arch
  | .conv2d cin cout k st p _ _ => .conv2d cin cout k st p
  | .tanh => .tanh
  | .relu => .relu
  | .avgPool2d k st => .avgPool2d k st
  | .maxPool2d k st => .maxPool2d k st
  | .dropout p => .dropout p
  | .dropout2d p => .dropout2d p
  | .linear inF outF _ _ => .linear inF outF
  | .softmax dim => .softmax dim

/-- Number of learnable scalars of a layer: `Conv2d` has a
`cout × cin × k × k` weight and a `cout` bias, `Linear` an `outF × inF`
weight and an `outF` bias; the other layers have no parameters. -/
def Arch.numParams : Arch → ℕ
  | .conv2d cin cout k _ _ => cout * (cin * k * k) + cout
  | .linear inF outF => outF * inF + outF
  | _ => 0

/-- Apply one layer to a tensor, threading the dropout-occurrence counter.
`nn.Dropout2d` zeroes whole channels on 4-D input; on 2-D input the library
(deprecation path) behaves as elementwise dropout; in evaluation mode it is
the identity with no shape check.  Other ranks do not arise in these models. -/
def applyLayer (mode : Mode) (masks : ℕ → ℕ → Bool) (l : Layer) (s : Tensor × ℕ) :
    Option (Tensor × ℕ) :=
  match l, s with
  | .conv2d cin cout k st p w bv, (t, c) => (conv2dT cin cout k st p w bv t).map (fun u => (u, c))
  | .tanh, (t, c) => some (tanhT t, c)
  | .relu, (t, c) => some (reluT t, c)
  | .avgPool2d k st, (t, c) => (avgPoolT k st t).map (fun u => (u, c))
  | .maxPool2d k st, (t, c) => (maxPoolT k st t).map (fun u => (u, c))
  | .dropout p, (t, c) => some (dropoutT mode p (masks c) t, c + 1)
  | .dropout2d p, (t, c) =>
      match t.shape with
      | [n, ch, h, w] =>
          some (⟨[n, ch, h, w], drop2dChanModeData mode p (masks c) (h * w) t.data⟩, c + 1)
      | [n, f] => some (⟨[n, f], dropModeData mode p (masks c) t.data⟩, c + 1)
      | _ =>
          match mode with
          | .training => none
          | .evaluation => some (t, c + 1)
  | .linear inF outF w bv, (t, c) => (linearT inF outF w bv t).map (fun u => (u, c))
  | .softmax dim, (t, c) => (softmaxT dim t).map (fun u => (u, c))

/-- Run an `nn.Sequential`: apply its layers in order, propagating the first
error. -/
def runLayers (mode : Mode) (masks : ℕ → ℕ → Bool) : List Layer → Tensor × ℕ → Option (Tensor × ℕ)
  | [], s => some s
  | l :: ls, s => (applyLayer mode masks l s).bind (runLayers mode masks ls)

/-- Parameters of `LeNet5` (`model.py`, class `LeNet5.__init__`). -/
structure LeNet5 where
  conv1_weight : ℕ → ℕ → ℕ → ℕ → ℝ
  conv1_bias : ℕ → ℝ
  conv2_weight : ℕ → ℕ → ℕ → ℕ → ℝ
  conv2_bias : ℕ → ℝ
  fc1_weight : ℕ → ℕ → ℝ
  fc1_bias : ℕ → ℝ
  fc2_weight : ℕ → ℕ → ℝ
  fc2_bias : ℕ → ℝ
  fc3_weight : ℕ → ℕ → ℝ
  fc3_bias : ℕ → ℝ

/-- `LeNet5.conv_layers`: Conv2d(1,6,5,stride=1,padding=2), Tanh,
AvgPool2d(2,2), Conv2d(6,16,5,stride=1,padding=0), Tanh, AvgPool2d(2,2). -/
def LeNet5.conv_layers (m : LeNet5) : List Layer :=
  [.conv2d 1 6 5 1 2 m.conv1_weight m.conv1_bias,
   .tanh,
   .avgPool2d 2 2,
   .conv2d 6 16 5 1 0 m.conv2_weight m.conv2_bias,
   .tanh,
   .avgPool2d 2 2]

/-- `LeNet5.fc_layers`: Linear(400,120), Tanh, Linear(120,84), Tanh,
Linear(84,10), Softmax(dim=1). -/
def LeNet5.fc_layers (m : LeNet5) : List Layer :=
  [.linear (16 * 5 * 5) 120 m.fc1_weight m.fc1_bias,
   .tanh,
   .linear 120 84 m.fc2_weight m.fc2_bias,
   .tanh,
   .linear 84 10 m.fc3_weight m.fc3_bias,
   .softmax 1]

/-- `LeNet5.forward`: `x = conv_layers(img); x = x.view(-1, 16*5*5);
output = fc_layers(x)`. -/
def LeNet5.forward (m : LeNet5) (mode : Mode) (masks : ℕ → ℕ → Bool) (img : Tensor) :
    Option Tensor :=
  (runLayers mode masks (LeNet5.conv_layers m) (img, 0)).bind fun s =>
  (viewFlat (16 * 5 * 5) s.1).bind fun x =>
  (runLayers mode masks (LeNet5.fc_layers m) (x, s.2)).map Prod.fst

/-- Total learnable parameter count of a `LeNet5` instance. -/
def LeNet5.numParams (m : LeNet5) : ℕ :=
  ((LeNet5.conv_layers m ++ LeNet5.fc_layers m).map (fun l => Arch.numParams (Layer.arch l))).sum

/-- Parameters of `CustomMLP` (`model.py`, class `CustomMLP.__init__`). -/
structure CustomMLP where
  layer1_weight : ℕ → ℕ → ℝ
  layer1_bias : ℕ → ℝ
  layer2_weight : ℕ → ℕ → ℝ
  layer2_bias : ℕ → ℝ
  layer3_weight : ℕ → ℕ → ℝ
  layer3_bias : ℕ → ℝ
  layer4_weight : ℕ → ℕ → ℝ
  layer4_bias : ℕ → ℝ
  layer5_weight : ℕ → ℕ → ℝ
  layer5_bias : ℕ → ℝ
  layer6_weight : ℕ → ℕ → ℝ
  layer6_bias : ℕ → ℝ
  layer7_weight : ℕ → ℕ → ℝ
  layer7_bias : ℕ → ℝ
  layer8_weight : ℕ → ℕ → ℝ
  layer8_bias : ℕ → ℝ

/-- `CustomMLP.layer1`: Linear(784,64), Dropout(0.5), ReLU. -/
def CustomMLP.layer1 (m : CustomMLP) : List Layer :=
  [.linear (28 * 28) 64 m.layer1_weight m.layer1_bias, .dropout 0.5, .relu]

/-- `CustomMLP.layer2`: Linear(64,64), Dropout(0.5), ReLU. -/
def CustomMLP.layer2 (m : CustomMLP) : List Layer :=
  [.linear 64 64 m.layer2_weight m.layer2_bias, .dropout 0.5, .relu]

/-- `CustomMLP.layer3`: Linear(64,64), Dropout(0.5), ReLU. -/
def CustomMLP.layer3 (m : CustomMLP) : List Layer :=
  [.linear 64 64 m.layer3_weight m.layer3_bias, .dropout 0.5, .relu]

/-- `CustomMLP.layer4`: Linear(64,32), Dropout(0.5), ReLU. -/
def CustomMLP.layer4 (m : CustomMLP) : List Layer :=
  [.linear 64 32 m.layer4_weight m.layer4_bias, .dropout 0.5, .relu]

/-- `CustomMLP.layer5`: Linear(32,16), Dropout(0.5), ReLU. -/
def CustomMLP.layer5 (m : CustomMLP) : List Layer :=
  [.linear 32 16 m.layer5_weight m.layer5_bias, .dropout 0.5, .relu]

/-- `CustomMLP.layer6`: Linear(16,16), Dropout(0.5), ReLU. -/
def CustomMLP.layer6 (m : CustomMLP) : List Layer :=
  [.linear 16 16 m.layer6_weight m.layer6_bias, .dropout 0.5, .relu]

/-- `CustomMLP.layer7`: Linear(16,10), Dropout(0.5), ReLU. -/
def CustomMLP.layer7 (m : CustomMLP) : List Layer :=
  [.linear 16 10 m.layer7_weight m.layer7_bias, .dropout 0.5, .relu]

/-- `CustomMLP.layer8`: Linear(10,10), Softmax(dim=1). -/
def CustomMLP.layer8 (m : CustomMLP) : List Layer :=
  [.linear 10 10 m.layer8_weight m.layer8_bias, .softmax 1]

/-- `CustomMLP.forward`: `x = img.view(-1, 28*28)` followed by the eight
sequential blocks in order. -/
def CustomMLP.forward (m : CustomMLP) (mode : Mode) (masks : ℕ → ℕ → Bool) (img : Tensor) :
    Option Tensor :=
  (viewFlat (28 * 28) img).bind fun x =>
  (runLayers mode masks (CustomMLP.layer1 m) (x, 0)).bind fun s1 =>
  (runLayers mode masks (CustomMLP.layer2 m) s1).bind fun s2 =>
  (runLayers mode masks (CustomMLP.layer3 m) s2).bind fun s3 =>
  (runLayers mode masks (CustomMLP.layer4 m) s3).bind fun s4 =>
  (runLayers mode masks (CustomMLP.layer5 m) s4).bind fun s5 =>
  (runLayers mode masks (CustomMLP.layer6 m) s5).bind fun s6 =>
  (runLayers mode masks (CustomMLP.layer7 m) s6).bind fun s7 =>
  (runLayers mode masks (CustomMLP.layer8 m) s7).map Prod.fst

/-- Total learnable parameter count of a `CustomMLP` instance. -/
def CustomMLP.numParams (m : CustomMLP) : ℕ :=
  ((CustomMLP.layer1 m ++ CustomMLP.layer2 m ++ CustomMLP.layer3 m ++ CustomMLP.layer4 m ++
    CustomMLP.layer5 m ++ CustomMLP.layer6 m ++ CustomMLP.layer7 m ++ CustomMLP.layer8 m).map
      (fun l => Arch.numParams (Layer.arch l))).sum

/-- Parameters of `RegularizedLenet5` (`model.py`, class
`RegularizedLenet5.__init__`). -/
structure RegularizedLenet5 where
  conv1_weight : ℕ → ℕ → ℕ → ℕ → ℝ
  conv1_bias : ℕ → ℝ
  conv2_weight : ℕ → ℕ → ℕ → ℕ → ℝ
  conv2_bias : ℕ → ℝ
  fc1_weight : ℕ → ℕ → ℝ
  fc1_bias : ℕ → ℝ
  fc2_weight : ℕ → ℕ → ℝ
  fc2_bias : ℕ → ℝ
  fc3_weight : ℕ → ℕ → ℝ
  fc3_bias : ℕ → ℝ

/-- `RegularizedLenet5.conv_layers`: Conv2d(1,6,5,1,2), ReLU, Dropout2d(0.5),
MaxPool2d(2,2), Conv2d(6,16,5,1,0), ReLU, Dropout2d(0.5), MaxPool2d(2,2). -/
def RegularizedLenet5.conv_layers (m : RegularizedLenet5) : List Layer :=
  [.conv2d 1 6 5 1 2 m.conv1_weight m.conv1_bias,
   .relu,
   .dropout2d 0.5,
   .maxPool2d 2 2,
   .conv2d 6 16 5 1 0 m.conv2_weight m.conv2_bias,
   .relu,
   .dropout2d 0.5,
   .maxPool2d 2 2]

/-- `RegularizedLenet5.fc_layers`: Linear(400,120), ReLU, Dropout2d(0.5),
Linear(120,84), ReLU, Dropout2d(0.5), Linear(84,10), Softmax(dim=1). -/
def RegularizedLenet5.fc_layers (m : RegularizedLenet5) : List Layer :=
  [.linear (16 * 5 * 5) 120 m.fc1_weight m.fc1_bias,
   .relu,
   .dropout2d 0.5,
   .linear 120 84 m.fc2_weight m.fc2_bias,
   .relu,
   .dropout2d 0.5,
   .linear 84 10 m.fc3_weight m.fc3_bias,
   .softmax 1]

/-- `RegularizedLenet5.forward`: identical control flow to `LeNet5.forward`. -/
def RegularizedLenet5.forward (m : RegularizedLenet5) (mode : Mode) (masks : ℕ → ℕ → Bool)
    (img : Tensor) : Option Tensor :=
  (runLayers mode masks (RegularizedLenet5.conv_layers m) (img, 0)).bind fun s =>
  (viewFlat (16 * 5 * 5) s.1).bind fun x =>
  (runLayers mode masks (RegularizedLenet5.fc_layers m) (x, s.2)).map Prod.fst

/-- Total learnable parameter count of a `RegularizedLenet5` instance. -/
def RegularizedLenet5.numParams (m : RegularizedLenet5) : ℕ :=
  ((RegularizedLenet5.conv_layers m ++ RegularizedLenet5.fc_layers m).map
      (fun l => Arch.numParams (Layer.arch l))).sum

/-- The topology transformation the specification describes for
`RegularizedLenet5`: each `Tanh` activation becomes `ReLU` followed by a
2-D dropout with `p = 0.5`, and each average pooling becomes max pooling
with the same window; all other layers are kept. -/
def regularizeArch : List Arch → List Arch
  | [] => []
  | Arch.tanh :: rest => Arch.relu :: Arch.dropout2d 0.5 :: regularizeArch rest
  | Arch.avgPool2d k st :: rest => Arch.maxPool2d k st :: regularizeArch rest
  | a :: rest => a :: regularizeArch rest

/-- The layer composition stated in the specification for `LeNet5`:
conv(1→6, kernel 5, stride 1, padding 2) → tanh → average-pool(2,2) →
conv(6→16, kernel 5, stride 1, padding 0) → tanh → average-pool(2,2) →
flatten to (batch, 400) → linear(400→120) → tanh → linear(120→84) → tanh →
linear(84→10) → softmax over the class dimension, and nothing else. -/
def LeNet5.specForward (m : LeNet5) (img : Tensor) : Option Tensor :=
  (conv2dT 1 6 5 1 2 m.conv1_weight m.conv1_bias img).bind fun x1 =>
  (avgPoolT 2 2 (tanhT x1)).bind fun x2 =>
  (conv2dT 6 16 5 1 0 m.conv2_weight m.conv2_bias x2).bind fun x3 =>
  (avgPoolT 2 2 (tanhT x3)).bind fun x4 =>
  (flattenBatch x4).bind fun x5 =>
  (linearT 400 120 m.fc1_weight m.fc1_bias x5).bind fun x6 =>
  (linearT 120 84 m.fc2_weight m.fc2_bias (tanhT x6)).bind fun x7 =>
  (linearT 84 10 m.fc3_weight m.fc3_bias (tanhT x7)).bind fun x8 =>
  softmaxT 1 x8

/-- The layer composition stated in the specification for `CustomMLP`:
flatten to (batch, 784), then seven blocks of [linear → dropout(p=0.5) →
ReLU] with widths 784→64→64→64→32→16→16→10, then linear(10→10) → softmax. -/
def CustomMLP.specForward (m : CustomMLP) (mode : Mode) (masks : ℕ → ℕ → Bool) (img : Tensor) :
    Option Tensor :=
  (flattenBatch img).bind fun x0 =>
  ((linearT 784 64 m.layer1_weight m.layer1_bias x0).map
      fun y => reluT (dropoutT mode 0.5 (masks 0) y)).bind fun x1 =>
  ((linearT 64 64 m.layer2_weight m.layer2_bias x1).map
      fun y => reluT (dropoutT mode 0.5 (masks 1) y)).bind fun x2 =>
  ((linearT 64 64 m.layer3_weight m.layer3_bias x2).map
      fun y => reluT (dropoutT mode 0.5 (masks 2) y)).bind fun x3 =>
  ((linearT 64 32 m.layer4_weight m.layer4_bias x3).map
      fun y => reluT (dropoutT mode 0.5 (masks 3) y)).bind fun x4 =>
  ((linearT 32 16 m.layer5_weight m.layer5_bias x4).map
      fun y => reluT (dropoutT mode 0.5 (masks 4) y)).bind fun x5 =>
  ((linearT 16 16 m.layer6_weight m.layer6_bias x5).map
      fun y => reluT (dropoutT mode 0.5 (masks 5) y)).bind fun x6 =>
  ((linearT 16 10 m.layer7_weight m.layer7_bias x6).map
      fun y => reluT (dropoutT mode 0.5 (masks 6) y)).bind fun x7 =>
  (linearT 10 10 m.layer8_weight m.layer8_bias x7).bind fun x8 =>
  softmaxT 1 x8

/-- Flat data produced by `LeNet5.conv_layers` on a `(b, 1, 28, 28)` input. -/
def lenetConvData (m : LeNet5) (d : ℕ → ℝ) : ℕ → ℝ :=
  avgPoolData 2 2 16 10 10 (tanhData (conv2dData 6 16 5 1 0 m.conv2_weight m.conv2_bias 14 14
    (avgPoolData 2 2 6 28 28 (tanhData
      (conv2dData 1 6 5 1 2 m.conv1_weight m.conv1_bias 28 28 d)))))

/-- Flat data produced by `LeNet5.fc_layers` just before the final softmax. -/
def lenetFcPre (m : LeNet5) (d : ℕ → ℝ) : ℕ → ℝ :=
  linearData 84 10 m.fc3_weight m.fc3_bias (tanhData (linearData 120 84 m.fc2_weight m.fc2_bias
    (tanhData (linearData (16 * 5 * 5) 120 m.fc1_weight m.fc1_bias d))))

/-- Pre-softmax data of a full `LeNet5` forward pass on a `(b, 1, 28, 28)`
input with flat data `d`. -/
def lenetPre (m : LeNet5) (d : ℕ → ℝ) : ℕ → ℝ :=
  lenetFcPre m (lenetConvData m d)

/-- Pre-softmax data of a full `CustomMLP` forward pass on flattened input
data `d`, for a given mode and dropout masks (dropout occurrences are
numbered 0–6 in execution order). -/
def mlpPre (m : CustomMLP) (mode : Mode) (masks : ℕ → ℕ → Bool) (d : ℕ → ℝ) : ℕ → ℝ :=
  linearData 10 10 m.layer8_weight m.layer8_bias
    (reluData (dropModeData mode 0.5 (masks 6) (linearData 16 10 m.layer7_weight m.layer7_bias
    (reluData (dropModeData mode 0.5 (masks 5) (linearData 16 16 m.layer6_weight m.layer6_bias
    (reluData (dropModeData mode 0.5 (masks 4) (linearData 32 16 m.layer5_weight m.layer5_bias
    (reluData (dropModeData mode 0.5 (masks 3) (linearData 64 32 m.layer4_weight m.layer4_bias
    (reluData (dropModeData mode 0.5 (masks 2) (linearData 64 64 m.layer3_weight m.layer3_bias
    (reluData (dropModeData mode 0.5 (masks 1) (linearData 64 64 m.layer2_weight m.layer2_bias
    (reluData (dropModeData mode 0.5 (masks 0)
      (linearData (28 * 28) 64 m.layer1_weight m.layer1_bias d)))))))))))))))))))))

/-- Flat data produced by `RegularizedLenet5.conv_layers` on a
`(b, 1, 28, 28)` input (dropout occurrences 0 and 1). -/
def regConvData (m : RegularizedLenet5) (mode : Mode) (masks : ℕ → ℕ → Bool) (d : ℕ → ℝ) :
    ℕ → ℝ :=
  maxPoolData 2 2 16 10 10 (drop2dChanModeData mode 0.5 (masks 1) (10 * 10)
    (reluData (conv2dData 6 16 5 1 0 m.conv2_weight m.conv2_bias 14 14
    (maxPoolData 2 2 6 28 28 (drop2dChanModeData mode 0.5 (masks 0) (28 * 28)
    (reluData (conv2dData 1 6 5 1 2 m.conv1_weight m.conv1_bias 28 28 d)))))))

/-- Flat data produced by `RegularizedLenet5.fc_layers` just before the
final softmax (dropout occurrences 2 and 3). -/
def regFcPre (m : RegularizedLenet5) (mode : Mode) (masks : ℕ → ℕ → Bool) (d : ℕ → ℝ) :
    ℕ → ℝ :=
  linearData 84 10 m.fc3_weight m.fc3_bias
    (dropModeData mode 0.5 (masks 3) (reluData (linearData 120 84 m.fc2_weight m.fc2_bias
    (dropModeData mode 0.5 (masks 2) (reluData
      (linearData (16 * 5 * 5) 120 m.fc1_weight m.fc1_bias d))))))

/-- Pre-softmax data of a full `RegularizedLenet5` forward pass. -/
def regPre (m : RegularizedLenet5) (mode : Mode) (masks : ℕ → ℕ → Bool) (d : ℕ → ℝ) : ℕ → ℝ :=
  regFcPre m mode masks (regConvData m mode masks d)

lemma viewFlat_eq (n : ℕ) (hn : 0 < n) (t : Tensor) (b : ℕ) (hp : t.shape.prod = b * n) :
    viewFlat n t = some ⟨[b, n], t.data⟩ := by
  unfold viewFlat
  rw [hp, if_pos ⟨hn, Nat.mul_mod_left b n⟩, Nat.mul_div_cancel b hn]

lemma optionBindCongr {α β : Type} (o : Option α) (f g : α → Option β)
    (h : ∀ a, f a = g a) : o.bind f = o.bind g := by
  cases o <;> simp [h]

/-- Each row of a dim-1 softmax sums to one. -/
lemma softmaxData_rowsum (n : ℕ) (hn : 0 < n) (d : ℕ → ℝ) (i : ℕ) :
    ∑ j ∈ Finset.range n, softmaxData n d (i * n + j) = 1 := by
  have hidx : ∀ j ∈ Finset.range n, softmaxData n d (i * n + j)
      = Real.exp (d (i * n + j)) / ∑ kk ∈ Finset.range n, Real.exp (d (i * n + kk)) := by
    intro j hj
    have hj' : j < n := Finset.mem_range.mp hj
    have hdiv : (i * n + j) / n = i := by
      rw [mul_comm, Nat.mul_add_div hn, Nat.div_eq_of_lt hj', add_zero]
    simp only [softmaxData, hdiv]
  rw [Finset.sum_congr rfl hidx, ← Finset.sum_div]
  exact div_self (ne_of_gt (Finset.sum_pos (fun kk _ => Real.exp_pos _)
    (Finset.nonempty_range_iff.mpr (Nat.pos_iff_ne_zero.mp hn))))

set_option maxRecDepth 8000 in
set_option maxHeartbeats 2000000 in
lemma lenet5_run (m : LeNet5) (mode : Mode) (masks : ℕ → ℕ → Bool) (b : ℕ) (d : ℕ → ℝ) :
    LeNet5.forward m mode masks ⟨[b, 1, 28, 28], d⟩
      = some ⟨[b, 10], softmaxData 10 (lenetPre m d)⟩ := by
  have hv : viewFlat (16 * 5 * 5) (⟨[b, 16, 5, 5], lenetConvData m d⟩ : Tensor)
      = some ⟨[b, 16 * 5 * 5], lenetConvData m d⟩ := by
    refine viewFlat_eq (16 * 5 * 5) (by norm_num) _ b ?_
    show ([b, 16, 5, 5] : List ℕ).prod = b * (16 * 5 * 5)
    simp only [List.prod_cons, List.prod_nil]
    ring
  calc LeNet5.forward m mode masks ⟨[b, 1, 28, 28], d⟩
      = (viewFlat (16 * 5 * 5) ⟨[b, 16, 5, 5], lenetConvData m d⟩).bind
          (fun x => (runLayers mode masks (LeNet5.fc_layers m) (x, 0)).map Prod.fst) := rfl
    _ = (some (⟨[b, 16 * 5 * 5], lenetConvData m d⟩ : Tensor)).bind
          (fun x => (runLayers mode masks (LeNet5.fc_layers m) (x, 0)).map Prod.fst) := by
          rw [hv]
    _ = some ⟨[b, 10], softmaxData 10 (lenetPre m d)⟩ := rfl

set_option maxRecDepth 8000 in
set_option maxHeartbeats 2000000 in
lemma lenet5_spec_run (m : LeNet5) (b : ℕ) (d : ℕ → ℝ) :
    LeNet5.specForward m ⟨[b, 1, 28, 28], d⟩
      = some ⟨[b, 10], softmaxData 10 (lenetPre m d)⟩ := by
  calc LeNet5.specForward m ⟨[b, 1, 28, 28], d⟩
      = (flattenBatch ⟨[b, 16, 5, 5], lenetConvData m d⟩).bind
          (fun x5 =>
            (linearT 400 120 m.fc1_weight m.fc1_bias x5).bind fun x6 =>
            (linearT 120 84 m.fc2_weight m.fc2_bias (tanhT x6)).bind fun x7 =>
            (linearT 84 10 m.fc3_weight m.fc3_bias (tanhT x7)).bind fun x8 =>
            softmaxT 1 x8) := rfl
    _ = some ⟨[b, 10], softmaxData 10 (lenetPre m d)⟩ := rfl

set_option maxRecDepth 8000 in
set_option maxHeartbeats 2000000 in
lemma mlp_run_flat (m : CustomMLP) (mode : Mode) (masks : ℕ → ℕ → Bool) (b : ℕ) (d : ℕ → ℝ) :
    CustomMLP.forward m mode masks ⟨[b, 784], d⟩
      = some ⟨[b, 10], softmaxData 10 (mlpPre m mode masks d)⟩ := by
  have hv : viewFlat (28 * 28) (⟨[b, 784], d⟩ : Tensor)
      = some ⟨[b, 28 * 28], d⟩ := by
    refine viewFlat_eq (28 * 28) (by norm_num) _ b ?_
    show ([b, 784] : List ℕ).prod = b * (28 * 28)
    simp only [List.prod_cons, List.prod_nil]
    ring
  calc CustomMLP.forward m mode masks ⟨[b, 784], d⟩
      = (viewFlat (28 * 28) ⟨[b, 784], d⟩).bind
          (fun x =>
            (runLayers mode masks (CustomMLP.layer1 m) (x, 0)).bind fun s1 =>
            (runLayers mode masks (CustomMLP.layer2 m) s1).bind fun s2 =>
            (runLayers mode masks (CustomMLP.layer3 m) s2).bind fun s3 =>
            (runLayers mode masks (CustomMLP.layer4 m) s3).bind fun s4 =>
            (runLayers mode masks (CustomMLP.layer5 m) s4).bind fun s5 =>
            (runLayers mode masks (CustomMLP.layer6 m) s5).bind fun s6 =>
            (runLayers mode masks (CustomMLP.layer7 m) s6).bind fun s7 =>
            (runLayers mode masks (CustomMLP.layer8 m) s7).map Prod.fst) := rfl
    _ = (some (⟨[b, 28 * 28], d⟩ : Tensor)).bind
          (fun x =>
            (runLayers mode masks (CustomMLP.layer1 m) (x, 0)).bind fun s1 =>
            (runLayers mode masks (CustomMLP.layer2 m) s1).bind fun s2 =>
            (runLayers mode masks (CustomMLP.layer3 m) s2).bind fun s3 =>
            (runLayers mode masks (CustomMLP.layer4 m) s3).bind fun s4 =>
            (runLayers mode masks (CustomMLP.layer5 m) s4).bind fun s5 =>
            (runLayers mode masks (CustomMLP.layer6 m) s5).bind fun s6 =>
            (runLayers mode masks (CustomMLP.layer7 m) s6).bind fun s7 =>
            (runLayers mode masks (CustomMLP.layer8 m) s7).map Prod.fst) := by
          rw [hv]
    _ = some ⟨[b, 10], softmaxData 10 (mlpPre m mode masks d)⟩ := rfl

set_option maxRecDepth 8000 in
set_option maxHeartbeats 2000000 in
lemma mlp_run_img (m : CustomMLP) (mode : Mode) (masks : ℕ → ℕ → Bool) (b : ℕ) (d : ℕ → ℝ) :
    CustomMLP.forward m mode masks ⟨[b, 1, 28, 28], d⟩
      = some ⟨[b, 10], softmaxData 10 (mlpPre m mode masks d)⟩ := by
  have hv : viewFlat (28 * 28) (⟨[b, 1, 28, 28], d⟩ : Tensor)
      = some ⟨[b, 28 * 28], d⟩ := by
    refine viewFlat_eq (28 * 28) (by norm_num) _ b ?_
    show ([b, 1, 28, 28] : List ℕ).prod = b * (28 * 28)
    simp only [List.prod_cons, List.prod_nil]
    ring
  calc CustomMLP.forward m mode masks ⟨[b, 1, 28, 28], d⟩
      = (viewFlat (28 * 28) ⟨[b, 1, 28, 28], d⟩).bind
          (fun x =>
            (runLayers mode masks (CustomMLP.layer1 m) (x, 0)).bind fun s1 =>
            (runLayers mode masks (CustomMLP.layer2 m) s1).bind fun s2 =>
            (runLayers mode masks (CustomMLP.layer3 m) s2).bind fun s3 =>
            (runLayers mode masks (CustomMLP.layer4 m) s3).bind fun s4 =>
            (runLayers mode masks (CustomMLP.layer5 m) s4).bind fun s5 =>
            (runLayers mode masks (CustomMLP.layer6 m) s5).bind fun s6 =>
            (runLayers mode masks (CustomMLP.layer7 m) s6).bind fun s7 =>
            (runLayers mode masks (CustomMLP.layer8 m) s7).map Prod.fst) := rfl
    _ = (some (⟨[b, 28 * 28], d⟩ : Tensor)).bind
          (fun x =>
            (runLayers mode masks (CustomMLP.layer1 m) (x, 0)).bind fun s1 =>
            (runLayers mode masks (CustomMLP.layer2 m) s1).bind fun s2 =>
            (runLayers mode masks (CustomMLP.layer3 m) s2).bind fun s3 =>
            (runLayers mode masks (CustomMLP.layer4 m) s3).bind fun s4 =>
            (runLayers mode masks (CustomMLP.layer5 m) s4).bind fun s5 =>
            (runLayers mode masks (CustomMLP.layer6 m) s5).bind fun s6 =>
            (runLayers mode masks (CustomMLP.layer7 m) s6).bind fun s7 =>
            (runLayers mode masks (CustomMLP.layer8 m) s7).map Prod.fst) := by
          rw [hv]
    _ = some ⟨[b, 10], softmaxData 10 (mlpPre m mode masks d)⟩ := rfl

set_option maxRecDepth 8000 in
set_option maxHeartbeats 2000000 in
lemma mlp_spec_run (m : CustomMLP) (mode : Mode) (masks : ℕ → ℕ → Bool) (b : ℕ) (d : ℕ → ℝ) :
    CustomMLP.specForward m mode masks ⟨[b, 1, 28, 28], d⟩
      = some ⟨[b, 10], softmaxData 10 (mlpPre m mode masks d)⟩ := rfl

set_option maxRecDepth 8000 in
set_option maxHeartbeats 2000000 in
lemma reg_run (m : RegularizedLenet5) (mode : Mode) (masks : ℕ → ℕ → Bool) (b : ℕ) (d : ℕ → ℝ) :
    RegularizedLenet5.forward m mode masks ⟨[b, 1, 28, 28], d⟩
      = some ⟨[b, 10], softmaxData 10 (regPre m mode masks d)⟩ := by
  have hv : viewFlat (16 * 5 * 5) (⟨[b, 16, 5, 5], regConvData m mode masks d⟩ : Tensor)
      = some ⟨[b, 16 * 5 * 5], regConvData m mode masks d⟩ := by
    refine viewFlat_eq (16 * 5 * 5) (by norm_num) _ b ?_
    show ([b, 16, 5, 5] : List ℕ).prod = b * (16 * 5 * 5)
    simp only [List.prod_cons, List.prod_nil]
    ring
  calc RegularizedLenet5.forward m mode masks ⟨[b, 1, 28, 28], d⟩
      = (viewFlat (16 * 5 * 5) ⟨[b, 16, 5, 5], regConvData m mode masks d⟩).bind
          (fun x => (runLayers mode masks (RegularizedLenet5.fc_layers m) (x, 2)).map Prod.fst)
        := rfl
    _ = (some (⟨[b, 16 * 5 * 5], regConvData m mode masks d⟩ : Tensor)).bind
          (fun x => (runLayers mode masks (RegularizedLenet5.fc_layers m) (x, 2)).map Prod.fst)
        := by rw [hv]
    _ = some ⟨[b, 10], softmaxData 10 (regPre m mode masks d)⟩ := rfl

lemma applyLayer_evaluation (masks masks' : ℕ → ℕ → Bool) (l : Layer) (s : Tensor × ℕ) :
    applyLayer Mode.evaluation masks l s = applyLayer Mode.evaluation masks' l s := by
  cases l <;> rfl

lemma runLayers_evaluation (masks masks' : ℕ → ℕ → Bool) (ls : List Layer) (s : Tensor × ℕ) :
    runLayers Mode.evaluation masks ls s = runLayers Mode.evaluation masks' ls s := by
  induction ls generalizing s with
  | nil => rfl
  | cons l ls ih =>
      show (applyLayer Mode.evaluation masks l s).bind _
        = (applyLayer Mode.evaluation masks' l s).bind _
      rw [applyLayer_evaluation masks masks' l s]
      exact optionBindCongr _ _ _ ih

/-- The externally visible state of a `torch.nn.Module`: its parameters and
its train/eval flag (`module.training`). -/
structure ModuleState (P : Type) where
  params : P
  training : Bool

/-- `LeNet5.forward` as a state-passing operation: Python's `forward` only
reads `self`, so the embedded state is threaded through unchanged. -/
def LeNet5.forwardM (s : ModuleState LeNet5) (masks : ℕ → ℕ → Bool) (t : Tensor) :
    Option Tensor × ModuleState LeNet5 :=
  (LeNet5.forward s.params (if s.training then Mode.training else Mode.evaluation) masks t, s)

/-- `CustomMLP.forward` as a state-passing operation. -/
def CustomMLP.forwardM (s : ModuleState CustomMLP) (masks : ℕ → ℕ → Bool) (t : Tensor) :
    Option Tensor × ModuleState CustomMLP :=
  (CustomMLP.forward s.params (if s.training then Mode.training else Mode.evaluation) masks t, s)

/-- `RegularizedLenet5.forward` as a state-passing operation. -/
def RegularizedLenet5.forwardM (s : ModuleState RegularizedLenet5) (masks : ℕ → ℕ → Bool)
    (t : Tensor) : Option Tensor × ModuleState RegularizedLenet5 :=
  (RegularizedLenet5.forward s.params (if s.training then Mode.training else Mode.evaluation)
    masks t, s)

/-- Mask family that never drops an element. -/
def masksOff : ℕ → ℕ → Bool := fun _ _ => false

/-- Mask family that drops every element. -/
def masksOn : ℕ → ℕ → Bool := fun _ _ => true

/-- A zero image batch of the declared shape `(1, 1, 28, 28)`. -/
def img1 : Tensor := ⟨[1, 1, 28, 28], fun _ => 0⟩

/-- A zero batch of pre-flattened shape `(1, 784)`. -/
def flat1 : Tensor := ⟨[1, 784], fun _ => 0⟩

/-- A zero batch of shape `(25, 1, 32, 32)`: not the declared input shape. -/
def t32 : Tensor := ⟨[25, 1, 32, 32], fun _ => 0⟩

/-- A zero batch of shape `(1, 3, 28, 28)`: wrong channel count. -/
def tBadChan : Tensor := ⟨[1, 3, 28, 28], fun _ => 0⟩

/-- A `LeNet5` instance with all parameters zero. -/
def lenet0 : LeNet5 :=
  ⟨fun _ _ _ _ => 0, fun _ => 0, fun _ _ _ _ => 0, fun _ => 0, fun _ _ => 0, fun _ => 0,
   fun _ _ => 0, fun _ => 0, fun _ _ => 0, fun _ => 0⟩

/-- A `CustomMLP` instance with all parameters zero. -/
def mlp0 : CustomMLP :=
  ⟨fun _ _ => 0, fun _ => 0, fun _ _ => 0, fun _ => 0, fun _ _ => 0, fun _ => 0,
   fun _ _ => 0, fun _ => 0, fun _ _ => 0, fun _ => 0, fun _ _ => 0, fun _ => 0,
   fun _ _ => 0, fun _ => 0, fun _ _ => 0, fun _ => 0⟩

/-- A `RegularizedLenet5` instance with all parameters zero. -/
def reg0 : RegularizedLenet5 :=
  ⟨fun _ _ _ _ => 0, fun _ => 0, fun _ _ _ _ => 0, fun _ => 0, fun _ _ => 0, fun _ => 0,
   fun _ _ => 0, fun _ => 0, fun _ _ => 0, fun _ => 0⟩

/-- A `CustomMLP` instance whose output is visibly sensitive to dropout:
`layer7` has bias 1, `layer8` has weight row scale `c`. -/
def mlpDiff : CustomMLP :=
  { mlp0 with layer7_bias := fun _ => 1, layer8_weight := fun c _ => (c : ℝ) }

lemma linearData_apply (inF outF : ℕ) (w : ℕ → ℕ → ℝ) (bv : ℕ → ℝ) (d : ℕ → ℝ) (idx : ℕ) :
    linearData inF outF w bv d idx
      = bv (idx % outF) + ∑ j ∈ Finset.range inF, w (idx % outF) j * d (idx / outF * inF + j) :=
  rfl

lemma mlpDiff_xA (z : ℕ → ℝ) (k : ℕ) :
    reluData (dropModeData Mode.training 0.5 (masksOff 6)
      (linearData 16 10 mlpDiff.layer7_weight mlpDiff.layer7_bias z)) k = 2 := by
  have h7 : linearData 16 10 mlpDiff.layer7_weight mlpDiff.layer7_bias z k = 1 := by
    rw [linearData_apply]
    simp [mlpDiff, mlp0]
  simp only [reluData, dropModeData, dropData, masksOff, h7]
  norm_num

lemma mlpDiff_xB (z : ℕ → ℝ) (k : ℕ) :
    reluData (dropModeData Mode.training 0.5 (masksOn 6)
      (linearData 16 10 mlpDiff.layer7_weight mlpDiff.layer7_bias z)) k = 0 := by
  simp only [reluData, dropModeData, dropData, masksOn]
  norm_num

lemma mlpDiff_preA (j : ℕ) (hj : j < 10) :
    mlpPre mlpDiff Mode.training masksOff (fun _ => 0) j = 20 * j := by
  unfold mlpPre
  rw [linearData_apply, Nat.mod_eq_of_lt hj, Nat.div_eq_of_lt hj]
  rw [Finset.sum_congr rfl fun k _ => by rw [mlpDiff_xA]]
  simp [mlpDiff, mlp0, Finset.sum_const, Finset.card_range]
  ring

lemma mlpDiff_preB (j : ℕ) (hj : j < 10) :
    mlpPre mlpDiff Mode.training masksOn (fun _ => 0) j = 0 := by
  unfold mlpPre
  rw [linearData_apply, Nat.mod_eq_of_lt hj, Nat.div_eq_of_lt hj]
  rw [Finset.sum_congr rfl fun k _ => by rw [mlpDiff_xB]]
  simp [mlpDiff, mlp0]

/-- With dropout active, an all-keep mask family and an all-drop mask family
produce different outputs from `mlpDiff` on the same input. -/
lemma mlp_train_diff :
    CustomMLP.forward mlpDiff Mode.training masksOff flat1
      ≠ CustomMLP.forward mlpDiff Mode.training masksOn flat1 := by
  have hA := mlp_run_flat mlpDiff Mode.training masksOff 1 (fun _ => 0)
  have hB := mlp_run_flat mlpDiff Mode.training masksOn 1 (fun _ => 0)
  intro h
  rw [show flat1 = (⟨[1, 784], fun _ => 0⟩ : Tensor) from rfl, hA, hB] at h
  have hdat := congrArg Tensor.data (Option.some.inj h)
  have h0 := congrFun hdat 0
  simp only [softmaxData] at h0
  simp only [Nat.zero_div, Nat.zero_mul, Nat.zero_add] at h0
  have hA0 : mlpPre mlpDiff Mode.training masksOff (fun _ => 0) 0 = 0 := by
    simpa using mlpDiff_preA 0 (by norm_num)
  have hB0 := mlpDiff_preB 0 (by norm_num)
  rw [hA0, hB0, Real.exp_zero] at h0
  have hDA : (∑ j ∈ Finset.range 10,
        Real.exp (mlpPre mlpDiff Mode.training masksOff (fun _ => 0) j))
      = ∑ j ∈ Finset.range 10, Real.exp (20 * (j : ℝ)) :=
    Finset.sum_congr rfl fun j hj => by rw [mlpDiff_preA j (Finset.mem_range.mp hj)]
  have hDB : (∑ j ∈ Finset.range 10,
        Real.exp (mlpPre mlpDiff Mode.training masksOn (fun _ => 0) j)) = 10 := by
    rw [Finset.sum_congr rfl fun j hj => by
      rw [mlpDiff_preB j (Finset.mem_range.mp hj), Real.exp_zero]]
    simp
  rw [hDA, hDB] at h0
  have hbig : (10 : ℝ) < ∑ j ∈ Finset.range 10, Real.exp (20 * (j : ℝ)) := by
    have h1 : (10 : ℝ) = ∑ _j ∈ Finset.range 10, (1 : ℝ) := by simp
    rw [h1]
    refine Finset.sum_lt_sum (fun j _ => Real.one_le_exp (by positivity))
      ⟨1, Finset.mem_range.mpr (by norm_num), ?_⟩
    have h20 : ((20 : ℝ) * ((1 : ℕ) : ℝ)) = 20 := by norm_num
    rw [h20]
    have := Real.add_one_lt_exp (by norm_num : (20 : ℝ) ≠ 0)
    linarith
  have hlt := one_div_lt_one_div_of_lt (by norm_num : (0 : ℝ) < 10) hbig
  linarith [h0, hlt]

/-- C1: applied to any input of shape `(batch, 1, 28, 28)`, `LeNet5.forward`
computes exactly the specified composition conv(1→6,5,1,2) → tanh →
avgpool(2,2) → conv(6→16,5,1,0) → tanh → avgpool(2,2) → flatten to
`(batch, 400)` → linear(400→120) → tanh → linear(120→84) → tanh →
linear(84→10) → softmax over the class dimension, with no other
transformations (`LeNet5.specForward`), in every mode. -/
theorem spec_c1 (m : LeNet5) (mode : Mode) (masks : ℕ → ℕ → Bool) (b : ℕ) (t : Tensor)
    (ht : t.shape = [b, 1, 28, 28]) :
    LeNet5.forward m mode masks t = LeNet5.specForward m t := by
  rcases t with ⟨sh, d⟩
  obtain rfl : sh = [b, 1, 28, 28] := ht
  rw [lenet5_run, lenet5_spec_run]

/-- Witness for C1 at a concrete zero input of shape `(1, 1, 28, 28)`. -/
theorem spec_c1_witness :
    img1.shape = [1, 1, 28, 28] ∧
      LeNet5.forward lenet0 Mode.evaluation masksOff img1 = LeNet5.specForward lenet0 img1 :=
  ⟨rfl, spec_c1 lenet0 Mode.evaluation masksOff 1 img1 rfl⟩

/-- C2: on an input of the declared image shape `(batch, 1, 28, 28)`,
`CustomMLP.forward` first flattens to `(batch, 784)` and then applies
exactly seven [linear → dropout(0.5) → ReLU] blocks with widths
784→64→64→64→32→16→16→10 followed by [linear(10→10) → softmax]
(`CustomMLP.specForward`), in every mode and for every choice of masks. -/
theorem spec_c2 (m : CustomMLP) (mode : Mode) (masks : ℕ → ℕ → Bool) (b : ℕ) (t : Tensor)
    (ht : t.shape = [b, 1, 28, 28]) :
    CustomMLP.forward m mode masks t = CustomMLP.specForward m mode masks t := by
  rcases t with ⟨sh, d⟩
  obtain rfl : sh = [b, 1, 28, 28] := ht
  rw [mlp_run_img, mlp_spec_run]

/-- Witness for C2 at a concrete zero input of shape `(1, 1, 28, 28)`. -/
theorem spec_c2_witness :
    img1.shape = [1, 1, 28, 28] ∧
      CustomMLP.forward mlp0 Mode.evaluation masksOff img1
        = CustomMLP.specForward mlp0 Mode.evaluation masksOff img1 :=
  ⟨rfl, spec_c2 mlp0 Mode.evaluation masksOff 1 img1 rfl⟩

/-- C3: the topology of `RegularizedLenet5` is that of `LeNet5` with every
tanh replaced by ReLU followed by a 2-D dropout with p = 0.5, every average
pooling replaced by max pooling, and the final block left as
linear(84→10) → softmax (the `regularizeArch` transformation), in both the
convolutional and the fully-connected `Sequential`. -/
theorem spec_c3 (r : RegularizedLenet5) (l : LeNet5) :
    (RegularizedLenet5.conv_layers r).map Layer.arch
        = regularizeArch ((LeNet5.conv_layers l).map Layer.arch) ∧
      (RegularizedLenet5.fc_layers r).map Layer.arch
        = regularizeArch ((LeNet5.fc_layers l).map Layer.arch) :=
  ⟨rfl, rfl⟩

/-- C4: the total learnable parameter counts are exactly 61706 for `LeNet5`,
61706 for `RegularizedLenet5`, and 61720 for `CustomMLP`. -/
theorem spec_c4 (l : LeNet5) (r : RegularizedLenet5) (c : CustomMLP) :
    LeNet5.numParams l = 61706 ∧ RegularizedLenet5.numParams r = 61706 ∧
      CustomMLP.numParams c = 61720 := by
  refine ⟨?_, ?_, ?_⟩ <;>
    simp [LeNet5.numParams, RegularizedLenet5.numParams, CustomMLP.numParams,
      LeNet5.conv_layers, LeNet5.fc_layers, RegularizedLenet5.conv_layers,
      RegularizedLenet5.fc_layers, CustomMLP.layer1, CustomMLP.layer2, CustomMLP.layer3,
      CustomMLP.layer4, CustomMLP.layer5, CustomMLP.layer6, CustomMLP.layer7, CustomMLP.layer8,
      Layer.arch, Arch.numParams]

/-- C5: in evaluation mode, on every input of shape `(batch, 1, 28, 28)`,
`LeNet5` and `RegularizedLenet5` return an output of shape `(batch, 10)`
each of whose rows sums to 1, and `CustomMLP` does the same on input of
shape `(batch, 784)`. -/
theorem spec_c5 :
    (∀ (m : LeNet5) (masks : ℕ → ℕ → Bool) (b : ℕ) (t : Tensor), t.shape = [b, 1, 28, 28] →
      ∃ u : Tensor, LeNet5.forward m Mode.evaluation masks t = some u ∧ u.shape = [b, 10] ∧
        ∀ i < b, ∑ j ∈ Finset.range 10, u.data (i * 10 + j) = 1) ∧
    (∀ (m : RegularizedLenet5) (masks : ℕ → ℕ → Bool) (b : ℕ) (t : Tensor),
      t.shape = [b, 1, 28, 28] →
      ∃ u : Tensor, RegularizedLenet5.forward m Mode.evaluation masks t = some u ∧
        u.shape = [b, 10] ∧
        ∀ i < b, ∑ j ∈ Finset.range 10, u.data (i * 10 + j) = 1) ∧
    (∀ (m : CustomMLP) (masks : ℕ → ℕ → Bool) (b : ℕ) (t : Tensor), t.shape = [b, 784] →
      ∃ u : Tensor, CustomMLP.forward m Mode.evaluation masks t = some u ∧ u.shape = [b, 10] ∧
        ∀ i < b, ∑ j ∈ Finset.range 10, u.data (i * 10 + j) = 1) := by
  refine ⟨?_, ?_, ?_⟩
  · intro m masks b t ht
    rcases t with ⟨sh, d⟩
    obtain rfl : sh = [b, 1, 28, 28] := ht
    exact ⟨_, lenet5_run m Mode.evaluation masks b d, rfl,
      fun i _ => softmaxData_rowsum 10 (by norm_num) (lenetPre m d) i⟩
  · intro m masks b t ht
    rcases t with ⟨sh, d⟩
    obtain rfl : sh = [b, 1, 28, 28] := ht
    exact ⟨_, reg_run m Mode.evaluation masks b d, rfl,
      fun i _ => softmaxData_rowsum 10 (by norm_num) (regPre m Mode.evaluation masks d) i⟩
  · intro m masks b t ht
    rcases t with ⟨sh, d⟩
    obtain rfl : sh = [b, 784] := ht
    exact ⟨_, mlp_run_flat m Mode.evaluation masks b d, rfl,
      fun i _ => softmaxData_rowsum 10 (by norm_num) (mlpPre m Mode.evaluation masks d) i⟩

/-- Witness for C5 at concrete zero inputs for all three models. -/
theorem spec_c5_witness :
    img1.shape = [1, 1, 28, 28] ∧ flat1.shape = [1, 784] ∧
      (∃ u : Tensor, LeNet5.forward lenet0 Mode.evaluation masksOff img1 = some u ∧
        u.shape = [1, 10] ∧ ∀ i < 1, ∑ j ∈ Finset.range 10, u.data (i * 10 + j) = 1) ∧
      (∃ u : Tensor, RegularizedLenet5.forward reg0 Mode.evaluation masksOff img1 = some u ∧
        u.shape = [1, 10] ∧ ∀ i < 1, ∑ j ∈ Finset.range 10, u.data (i * 10 + j) = 1) ∧
      (∃ u : Tensor, CustomMLP.forward mlp0 Mode.evaluation masksOff flat1 = some u ∧
        u.shape = [1, 10] ∧ ∀ i < 1, ∑ j ∈ Finset.range 10, u.data (i * 10 + j) = 1) :=
  ⟨rfl, rfl, spec_c5.1 lenet0 masksOff 1 img1 rfl, spec_c5.2.1 reg0 masksOff 1 img1 rfl,
    spec_c5.2.2 mlp0 masksOff 1 flat1 rfl⟩

/-- C6: in training mode, for every choice of dropout masks the forward pass
of the dropout-carrying models (`CustomMLP` on `(batch, 784)` input,
`RegularizedLenet5` on `(batch, 1, 28, 28)` input) still returns shape
`(batch, 10)` with rows summing to 1; yet two passes on identical input with
different mask outcomes can produce different values. -/
theorem spec_c6 :
    (∀ (m : CustomMLP) (masks : ℕ → ℕ → Bool) (b : ℕ) (t : Tensor), t.shape = [b, 784] →
      ∃ u : Tensor, CustomMLP.forward m Mode.training masks t = some u ∧ u.shape = [b, 10] ∧
        ∀ i < b, ∑ j ∈ Finset.range 10, u.data (i * 10 + j) = 1) ∧
    (∀ (m : RegularizedLenet5) (masks : ℕ → ℕ → Bool) (b : ℕ) (t : Tensor),
      t.shape = [b, 1, 28, 28] →
      ∃ u : Tensor, RegularizedLenet5.forward m Mode.training masks t = some u ∧
        u.shape = [b, 10] ∧
        ∀ i < b, ∑ j ∈ Finset.range 10, u.data (i * 10 + j) = 1) ∧
    (∃ (m : CustomMLP) (t : Tensor) (masksA masksB : ℕ → ℕ → Bool),
      CustomMLP.forward m Mode.training masksA t ≠ CustomMLP.forward m Mode.training masksB t)
    := by
  refine ⟨?_, ?_, mlpDiff, flat1, masksOff, masksOn, mlp_train_diff⟩
  · intro m masks b t ht
    rcases t with ⟨sh, d⟩
    obtain rfl : sh = [b, 784] := ht
    exact ⟨_, mlp_run_flat m Mode.training masks b d, rfl,
      fun i _ => softmaxData_rowsum 10 (by norm_num) (mlpPre m Mode.training masks d) i⟩
  · intro m masks b t ht
    rcases t with ⟨sh, d⟩
    obtain rfl : sh = [b, 1, 28, 28] := ht
    exact ⟨_, reg_run m Mode.training masks b d, rfl,
      fun i _ => softmaxData_rowsum 10 (by norm_num) (regPre m Mode.training masks d) i⟩

/-- Witness for C6 at concrete zero inputs with the all-drop mask family. -/
theorem spec_c6_witness :
    flat1.shape = [1, 784] ∧ img1.shape = [1, 1, 28, 28] ∧
      (∃ u : Tensor, CustomMLP.forward mlp0 Mode.training masksOn flat1 = some u ∧
        u.shape = [1, 10] ∧ ∀ i < 1, ∑ j ∈ Finset.range 10, u.data (i * 10 + j) = 1) ∧
      (∃ u : Tensor, RegularizedLenet5.forward reg0 Mode.training masksOn img1 = some u ∧
        u.shape = [1, 10] ∧ ∀ i < 1, ∑ j ∈ Finset.range 10, u.data (i * 10 + j) = 1) :=
  ⟨rfl, rfl, spec_c6.1 mlp0 masksOn 1 flat1 rfl, spec_c6.2.1 reg0 masksOn 1 img1 rfl⟩

/-- C7: in evaluation mode every model's forward pass is deterministic — the
output does not depend on the dropout mask family (the only stochastic
input), so two invocations on the same input and parameters agree — and
dropout is the identity in evaluation mode. -/
theorem spec_c7 :
    (∀ (m : LeNet5) (masks masks' : ℕ → ℕ → Bool) (t : Tensor),
      LeNet5.forward m Mode.evaluation masks t = LeNet5.forward m Mode.evaluation masks' t) ∧
    (∀ (m : CustomMLP) (masks masks' : ℕ → ℕ → Bool) (t : Tensor),
      CustomMLP.forward m Mode.evaluation masks t
        = CustomMLP.forward m Mode.evaluation masks' t) ∧
    (∀ (m : RegularizedLenet5) (masks masks' : ℕ → ℕ → Bool) (t : Tensor),
      RegularizedLenet5.forward m Mode.evaluation masks t
        = RegularizedLenet5.forward m Mode.evaluation masks' t) ∧
    (∀ (p : ℚ) (masks : ℕ → ℕ → Bool) (t : Tensor) (c : ℕ),
      applyLayer Mode.evaluation masks (Layer.dropout p) (t, c) = some (t, c + 1)) ∧
    (∀ (p : ℚ) (masks : ℕ → ℕ → Bool) (t : Tensor) (c : ℕ),
      applyLayer Mode.evaluation masks (Layer.dropout2d p) (t, c) = some (t, c + 1)) := by
  refine ⟨?_, ?_, ?_, ?_, ?_⟩
  · intro m masks masks' t
    unfold LeNet5.forward
    simp only [runLayers_evaluation masks masks']
  · intro m masks masks' t
    unfold CustomMLP.forward
    simp only [runLayers_evaluation masks masks']
  · intro m masks masks' t
    unfold RegularizedLenet5.forward
    simp only [runLayers_evaluation masks masks']
  · intro p masks t c
    rfl
  · intro p masks t c
    rcases t with ⟨sh, dat⟩
    rcases sh with _ | ⟨a1, _ | ⟨a2, _ | ⟨a3, _ | ⟨a4, _ | ⟨a5, rest⟩⟩⟩⟩⟩ <;> rfl

/-- C8 counterexample: the input `t32` of shape `(25, 1, 32, 32)` — not the
declared `(batch, 1, 28, 28)` — does not raise an error in `LeNet5.forward`:
it returns a result (of shape `(36, 10)`, a different batch size). -/
theorem spec_c8_counterexample :
    t32.shape = [25, 1, 32, 32] ∧
      ∃ u : Tensor, LeNet5.forward lenet0 Mode.evaluation masksOff t32 = some u ∧
        u.shape = [36, 10] := by
  exact ⟨rfl, ⟨_, rfl, rfl⟩⟩

/-- C8 (amended): an input whose shape is incompatible with a layer (e.g.
wrong channel count) makes the forward pass fail with the library's
dimension-mismatch error, which propagates to the caller; but not every
input shape other than the declared one is rejected — a shape that stays
compatible with every layer, such as `(25, 1, 32, 32)`, is accepted and
returns a result with a different batch dimension. -/
theorem spec_c8_amended :
    (∀ (m : LeNet5) (mode : Mode) (masks : ℕ → ℕ → Bool),
        LeNet5.forward m mode masks tBadChan = none) ∧
      ∃ u : Tensor, LeNet5.forward lenet0 Mode.evaluation masksOff t32 = some u ∧
        u.shape = [36, 10] := by
  constructor
  · intro m mode masks
    rfl
  · exact ⟨_, rfl, rfl⟩

/-- C9: a forward pass leaves the model state — parameters plus the
train/eval flag, which is all the state a model carries — unchanged; the
embedded `forward` is a pure function of that state, the masks and the
input. -/
theorem spec_c9 (s1 : ModuleState LeNet5) (s2 : ModuleState CustomMLP)
    (s3 : ModuleState RegularizedLenet5) (masks : ℕ → ℕ → Bool) (t : Tensor) :
    (LeNet5.forwardM s1 masks t).2 = s1 ∧ (CustomMLP.forwardM s2 masks t).2 = s2 ∧
      (RegularizedLenet5.forwardM s3 masks t).2 = s3 :=
  ⟨rfl, rfl, rfl⟩

/-- C10: `CustomMLP.forward` flattens its input itself via `view(-1, 784)`,
so an image-shaped input `(batch, 1, 28, 28)` — not only a pre-flattened one
— yields an output whose batch dimension equals the input's. -/
theorem spec_c10 (m : CustomMLP) (mode : Mode) (masks : ℕ → ℕ → Bool) (b : ℕ) (t : Tensor)
    (ht : t.shape = [b, 1, 28, 28]) :
    ∃ u : Tensor, CustomMLP.forward m mode masks t = some u ∧ u.shape = [b, 10] := by
  rcases t with ⟨sh, d⟩
  obtain rfl : sh = [b, 1, 28, 28] := ht
  exact ⟨_, mlp_run_img m mode masks b d, rfl⟩

/-- Witness for C10 at a concrete zero input of shape `(1, 1, 28, 28)`. -/
theorem spec_c10_witness :
    img1.shape = [1, 1, 28, 28] ∧
      ∃ u : Tensor, CustomMLP.forward mlp0 Mode.training masksOn img1 = some u ∧
        u.shape = [1, 10] :=
  ⟨rfl, spec_c10 mlp0 Mode.training masksOn 1 img1 rfl⟩
